import Mathlib

/-!
The profile card of random-user-generator: a shallow embedding of `src/user-generator.js`.

* JavaScript values that can come out of `JSON.parse` are the inductive type `JSValue`.
  A function that can raise a `TypeError` returns an `Option`: `none` is the throw.
* Module-level variables (`currentUserData`, `isLoading`) and the parts of the page the
  script writes to are the fields of `State`; every function takes the state and returns
  the new one.
* The function `getNewUser` is `async` with two `await`s.  It is embedded as a coroutine:
  `getNewUser` runs up to the `fetch`, `afterFetch` resumes it with the settled fetch and
  `afterJson` resumes it with the settled `response.json()`.  Other events may be handled
  between the pieces.
* What the script takes from its host (time zone, the implementation-defined part of
  `Date.parse`) is a `Host` record; the markup (`index.html` is not part of the sources)
  is the list `State.icons`.
-/

namespace UserGenerator

/-! ## JavaScript values -/

/-- A JavaScript value as `JSON.parse` can produce it, plus `undefined`.
Numbers are the integral ones (street numbers, ages, time values).
An object is its list of own properties; the first binding of a key is the one that counts. -/
inductive JSValue where
  | undefined
  | null
  | bool (b : Bool)
  | num (n : Int)
  | str (s : String)
  | arr (xs : List JSValue)
  | obj (fields : List (String × JSValue))

namespace JSValue

/-- Own property `k` of a property list. -/
def lookup (k : String) : List (String × JSValue) → Option JSValue
  | [] => none
  | (k', v) :: rest => if k' = k then some v else lookup k rest

/-- The member access `v.k` for the property names the script uses (none of them is defined
on a built-in prototype, so only own properties of objects are found).
`none` is the `TypeError` of reading a property of `undefined` or `null`. -/
def get (v : JSValue) (k : String) : Option JSValue :=
  match v with
  | undefined => none
  | null => none
  | obj fs => some ((lookup k fs).getD undefined)
  | _ => some undefined

/-- The optional chain `v?.k`: `undefined` when `v` is `undefined` or `null`. -/
def getOpt (v : JSValue) (k : String) : JSValue :=
  match v with
  | obj fs => (lookup k fs).getD undefined
  | _ => undefined

/-- The element access `v[0]`; `none` is the `TypeError` on `undefined` or `null`.
The first element of a string stands for its first UTF-16 code unit. -/
def index0 (v : JSValue) : Option JSValue :=
  match v with
  | undefined => none
  | null => none
  | arr xs => some (xs.headD undefined)
  | obj fs => some ((lookup "0" fs).getD undefined)
  | str s => some (match s.data with
      | [] => undefined
      | c :: _ => str (String.singleton c))
  | _ => some undefined

/-- The nullish coalescing `v ?? d`. -/
def orElse (v d : JSValue) : JSValue :=
  match v with
  | undefined => d
  | null => d
  | _ => v

/-- The abstract operation `ToBoolean`. -/
def truthy : JSValue → Bool
  | undefined => false
  | null => false
  | bool b => b
  | num n => n != 0
  | str s => s != ""
  | arr _ => true
  | obj _ => true

/-- Whether `Object.keys(v).length === 0`, for a `v` other than `undefined` and `null`
(on those `Object.keys` throws; the script tests `!v` first). -/
def hasNoKeys : JSValue → Bool
  | str s => s.data.isEmpty
  | arr xs => xs.isEmpty
  | obj fs => fs.isEmpty
  | _ => true

mutual
/-- The abstract operation `ToString`, as a template literal and a DOM string setter apply it.
`none` is the `TypeError` of `OrdinaryToPrimitive` on an object whose own property
`toString` shadows `Object.prototype.toString` (a parsed value is never callable). -/
def toStr : JSValue → Option String
  | undefined => some "undefined"
  | null => some "null"
  | bool true => some "true"
  | bool false => some "false"
  | num n => some (toString n)
  | str s => some s
  | arr xs => (elemStrs xs).map (String.intercalate ",")
  | obj fs =>
    match lookup "toString" fs with
    | some _ => none
    | none => some "[object Object]"
termination_by structural v => v
/-- The strings `Array.prototype.join` puts between the separators:
the empty string for `undefined` and `null`, `ToString` of any other element. -/
def elemStrs : List JSValue → Option (List String)
  | [] => some []
  | undefined :: rest => (elemStrs rest).map (fun bs => "" :: bs)
  | null :: rest => (elemStrs rest).map (fun bs => "" :: bs)
  | x :: rest =>
    match toStr x, elemStrs rest with
    | some a, some bs => some (a :: bs)
    | _, _ => none
termination_by structural xs => xs
end

end JSValue

open JSValue

/-! ## Dates (ECMA-262 section 21.4.1, ECMA-402 for the `en-US` rendering) -/

/-- What the script takes from the engine it runs in. -/
structure Host where
  /-- Offset of local time from UTC, in milliseconds, at the UTC time value `t`. -/
  localTZA : Int → Int
  /-- Result of `Date.parse` on a string that is not a calendar date in the form `YYYY-MM-DD`:
  the other standard forms and the implementation-defined fallback; `none` is `NaN`. -/
  parseOther : String → Option Int
  /-- The `en-US` rendering of a local time value that falls before year 1. -/
  renderBeforeYearOne : Int → String

def msPerDay : Int := 86400000

/-- The operation `Day(t)`. -/
def day (t : Int) : Int := t / msPerDay

/-- The operation `DayFromYear(y)`: the day number of the first day of year `y`. -/
def dayFromYear (y : Int) : Int :=
  365 * (y - 1970) + (y - 1969) / 4 - (y - 1901) / 100 + (y - 1601) / 400

/-- The operation `InLeapYear`, as 0 or 1, from `DaysInYear(y)`. -/
def inLeapYear (y : Int) : Int :=
  if y % 4 ≠ 0 then 0 else if y % 100 ≠ 0 then 1 else if y % 400 ≠ 0 then 0 else 1

/-- The operation `YearFromTime`, on the day number: the largest `y` with `dayFromYear y ≤ d`.
The estimate `1970 + 400 * d / 146097` is never off by more than one year
(`yearFromDay_spec` below). -/
def yearFromDay (d : Int) : Int :=
  let y := 1970 + 400 * d / 146097
  if dayFromYear (y + 1) ≤ d then y + 1 else if dayFromYear y ≤ d then y else y - 1

/-- The operation `DayWithinYear`, on the day number. -/
def dayWithinYear (d : Int) : Int := d - dayFromYear (yearFromDay d)

/-- The operation `MonthFromTime`, on the day number: 0 is January. -/
def monthFromDay (d : Int) : Int :=
  let w := dayWithinYear d
  let l := inLeapYear (yearFromDay d)
  if w < 31 then 0
  else if w < 59 + l then 1
  else if w < 90 + l then 2
  else if w < 120 + l then 3
  else if w < 151 + l then 4
  else if w < 181 + l then 5
  else if w < 212 + l then 6
  else if w < 243 + l then 7
  else if w < 273 + l then 8
  else if w < 304 + l then 9
  else if w < 334 + l then 10
  else 11

/-- The operation `DateFromTime`, on the day number: the day of the month, from 1. -/
def dateFromDay (d : Int) : Int :=
  let w := dayWithinYear d
  let l := inLeapYear (yearFromDay d)
  let m := monthFromDay d
  if m = 0 then w + 1
  else if m = 1 then w - 30
  else if m = 2 then w - 58 - l
  else if m = 3 then w - 89 - l
  else if m = 4 then w - 119 - l
  else if m = 5 then w - 150 - l
  else if m = 6 then w - 180 - l
  else if m = 7 then w - 211 - l
  else if m = 8 then w - 242 - l
  else if m = 9 then w - 272 - l
  else if m = 10 then w - 303 - l
  else w - 333 - l

/-- Day within the year on which month `m` (1 is January) starts. -/
def monthStart (m : Nat) (l : Int) : Int :=
  if m = 1 then 0
  else if m = 2 then 31
  else if m = 3 then 59 + l
  else if m = 4 then 90 + l
  else if m = 5 then 120 + l
  else if m = 6 then 151 + l
  else if m = 7 then 181 + l
  else if m = 8 then 212 + l
  else if m = 9 then 243 + l
  else if m = 10 then 273 + l
  else if m = 11 then 304 + l
  else 334 + l

/-- Number of days of month `m` (1 is January) in a year with leap flag `l`. -/
def daysInMonth (m : Nat) (l : Int) : Int :=
  if m = 2 then 28 + l
  else if m = 4 ∨ m = 6 ∨ m = 9 ∨ m = 11 then 30
  else 31

/-- The operation `MakeDay` for a calendar date: the day number of year `y`, month `m` (from 1), day `dd`. -/
def makeDay (y : Int) (m : Nat) (dd : Int) : Int :=
  dayFromYear y + monthStart m (inLeapYear y) + dd - 1

/-- Value of a decimal digit. -/
def digit? (c : Char) : Option Nat :=
  if c.isDigit then some (c.toNat - 48) else none

/-- Value of a run of decimal digits; `none` when a character is not a digit. -/
def digits? (cs : List Char) : Option Nat :=
  cs.foldl (fun acc c =>
    match acc, digit? c with
    | some a, some v => some (10 * a + v)
    | _, _ => none) (some 0)

/-- The year, month and day written in a string of the date-only form `YYYY-MM-DD` of the
Date Time String Format; `none` when the string is not of that form. -/
def dateFields (s : String) : Option (Nat × Nat × Nat) :=
  match s.data with
  | [y1, y2, y3, y4, '-', m1, m2, '-', d1, d2] =>
    match digits? [y1, y2, y3, y4], digits? [m1, m2], digits? [d1, d2] with
    | some y, some m, some dd => some (y, m, dd)
    | _, _, _ => none
  | _ => none

/-- Whether year `y`, month `m` (from 1), day `dd` name a day of the calendar. -/
def validDate (y m dd : Nat) : Prop :=
  1 ≤ m ∧ m ≤ 12 ∧ 1 ≤ dd ∧ (dd : Int) ≤ daysInMonth m (inLeapYear y)

instance (y m dd : Nat) : Decidable (validDate y m dd) := by
  unfold validDate
  infer_instance

/-- Result of `Date.parse` on the date-only form `YYYY-MM-DD`, which is read as UTC midnight.
`none` when the string is not of that form or names no day of the calendar. -/
def parseDateOnly (s : String) : Option Int :=
  match dateFields s with
  | some (y, m, dd) =>
    if validDate y m dd then some (msPerDay * makeDay y m dd) else none
  | none => none

/-- The function `Date.parse`; `none` is `NaN`. -/
def dateParse (h : Host) (s : String) : Option Int :=
  match parseDateOnly s with
  | some t => some t
  | none => h.parseOther s

/-- The operation `TimeClip`. -/
def timeClip (n : Int) : Option Int :=
  if n.natAbs ≤ 8640000000000000 then some n else none

/-- The time value of `new Date(v)`: a string is parsed, any other primitive is converted to
a number, an array or object is first converted to a primitive, which is its string.
The outer `none` is a `TypeError` from that conversion, the inner `none` an invalid date. -/
def newDate (h : Host) (v : JSValue) : Option (Option Int) :=
  match v with
  | .undefined => some none
  | .null => some (some 0)
  | .bool b => some (some (if b then 1 else 0))
  | .num n => some (timeClip n)
  | .str s => some (dateParse h s)
  | .arr xs => (toStr (.arr xs)).map (dateParse h)
  | .obj fs => (toStr (.obj fs)).map (dateParse h)

/-- The `en-US` numeric date `M/D/YYYY` of a day number of year 1 or later. -/
def renderUS (d : Int) : String :=
  toString (monthFromDay d + 1) ++ "/" ++ toString (dateFromDay d) ++ "/" ++
    toString (yearFromDay d)

/-- The call `date.toLocaleDateString("en-US")` on a date with time value `tv`: the calendar
day of the local time, month first, no padding. -/
def toLocaleDateString (h : Host) (tv : Option Int) : String :=
  match tv with
  | none => "Invalid Date"
  | some t =>
    let lt := t + h.localTZA t
    if 1 ≤ yearFromDay (day lt) then renderUS (day lt) else h.renderBeforeYearOne lt

/-! ## The page and the module state -/

/-- One `li` of the icon list, as the script sees it: its `data-label` and `data-title`
attributes (absent or a string) and whether its class list holds `active`. -/
structure Icon where
  label : Option String
  title : Option String
  active : Bool
deriving DecidableEq

/-- What `console.error` is handed in `getNewUser`. -/
inductive JSError where
  /-- The `Error` the script builds for a response that is not ok, with its `status`. -/
  | http (status : Nat)
  /-- The rejection of `fetch` (no response at all). -/
  | transport
  /-- The rejection of `response.json()` (the body is not JSON). -/
  | parse
  /-- A `TypeError` raised while the record is processed. -/
  | typeError
deriving DecidableEq

/-- The two module variables and what the script writes on the page.  The elements fetched
by `getElementById` at the top of the script exist; `icons` is `iconElements`, the `li`
elements of the list in document order, and they are the only elements that carry a
`data-label`. -/
structure State where
  /-- The variable `currentUserData`. -/
  currentUserData : JSValue
  /-- The variable `isLoading`. -/
  isLoading : Bool
  /-- Attributes `src` and `alt` of the image. -/
  photoSrc : String
  photoAlt : String
  /-- Text content of the elements `user_title` and `user_value`. -/
  userTitle : String
  userValue : String
  icons : List Icon
  /-- Whether the class list holds `hidden`, for the card, skeleton, status area, loader. -/
  cardHidden : Bool
  skeletonHidden : Bool
  statusAreaHidden : Bool
  loaderHidden : Bool
  /-- Text content of the element `status`. -/
  statusText : String
  /-- What was passed to `console.error`, latest first. -/
  console : List JSError

/-- How a synchronous function ends: normally or by throwing, with the state it leaves. -/
inductive Completion where
  | normal (s : State)
  | thrown (s : State)

/-- The state a completion leaves. -/
def Completion.state : Completion → State
  | .normal s => s
  | .thrown s => s

/-- The state at the end of the script's top level, before the first `getNewUser()`:
`currentUserData = {}`, `isLoading = false`; the page is the markup as loaded. -/
def initialState (page : State) : State :=
  { page with currentUserData := .obj [], isLoading := false }

/-- The `data-label` values of the icons whose class list holds `active`. -/
def activeLabels (s : State) : List (Option String) :=
  (s.icons.filter (fun i => i.active)).map (fun i => i.label)

/-- The setter of `textContent`: `undefined` and `null` give the empty string. -/
def textOf (v : Option String) : String := v.getD ""

/-! ## The functions of `user-generator.js` -/

/-- The function `updateActiveIcon(targetLi)` for the icon at position `target`: `active` is removed from
every icon and added to the target. -/
def updateActiveIcon (s : State) (target : Nat) : State :=
  let cleared := s.icons.map (fun i => { i with active := false })
  { s with icons := cleared.modify (fun i => { i with active := true }) target }

/-- The function `showLoading()`. -/
def showLoading (s : State) : State :=
  { s with cardHidden := true, skeletonHidden := false, statusAreaHidden := false,
           loaderHidden := false, statusText := "" }

/-- The function `hideLoading()`. -/
def hideLoading (s : State) : State :=
  { s with skeletonHidden := true, statusAreaHidden := true, loaderHidden := true,
           cardHidden := false }

/-- The function `showError(message)`. -/
def showError (s : State) (message : String) : State :=
  { s with statusAreaHidden := false, cardHidden := true, statusText := message,
           loaderHidden := true }

/-- The function `extractUserData(label)` reading `currentUserData`; `none` is a `TypeError`. -/
def extractUserData (h : Host) (currentUserData : JSValue) (label : String) :
    Option JSValue :=
  let user := currentUserData
  if !truthy user || hasNoKeys user then some (.str "Data not found")
  else
    match label with
    | "name" => do
      let name ← get user "name"
      let first ← toStr (orElse (getOpt name "first") (.str "N/A"))
      let name ← get user "name"
      let last ← toStr (orElse (getOpt name "last") (.str "N/A"))
      pure (.str (first ++ " " ++ last))
    | "location" => do
      let location ← get user "location"
      let number ← toStr (orElse (getOpt (getOpt location "street") "number") (.str "N/A"))
      let location ← get user "location"
      let name ← toStr (orElse (getOpt (getOpt location "street") "name") (.str "N/A"))
      pure (.str (number ++ " " ++ name))
    | "birthday" => do
      let dob ← get user "dob"
      if !truthy (getOpt dob "date") then pure (.str "N/A")
      else
        let dob ← get user "dob"
        let date ← get dob "date"
        let birthDate ← newDate h date
        pure (.str (toLocaleDateString h birthDate))
    | "email" => do
      let email ← get user "email"
      pure (orElse email (.str "N/A"))
    | "phone" => do
      let phone ← get user "phone"
      pure (orElse phone (.str "N/A"))
    | _ => some (.str "Data not found")

/-- The function `processUserData(user)`.  The statements run in the order of the source, so a throw
leaves the assignments made before it. -/
def processUserData (s : State) (user : JSValue) : Completion :=
  let s := { s with currentUserData := user }
  match do
      let name ← get user "name"
      let first ← get name "first"
      let first ← toStr first
      let name ← get user "name"
      let last ← get name "last"
      let last ← toStr last
      pure (first ++ " " ++ last) with
  | none => .thrown s
  | some fullName =>
    match do
        let picture ← get user "picture"
        let large ← get picture "large"
        toStr large with
    | none => .thrown s
    | some src =>
      let s := { s with photoSrc := src }
      match do
          let name ← get user "name"
          let title ← get name "title"
          toStr title with
      | none => .thrown s
      | some title =>
        let s := { s with photoAlt := title ++ " " ++ fullName ++ " profile picture" }
        let s := { s with userTitle := "Hi, My name is" }
        let s := { s with userValue := fullName }
        match s.icons.findIdx? (fun i => i.label == some "name") with
        | some nameIconLi => .normal (updateActiveIcon s nameIconLi)
        | none => .normal s

/-- The function `handleIconHover(e)`.  `target` is what `e.target.closest("li")` resolves to: the position
of an icon, or nothing (a position outside the list also stands for nothing). -/
def handleIconHover (h : Host) (s : State) (target : Option Nat) : Completion :=
  match target.bind (fun i => (s.icons.get? i).map (fun li => (i, li))) with
  | none => .normal s
  | some (i, targetLi) =>
    let dataLabel := targetLi.label
    let dataTitle := targetLi.title
    match dataLabel with
    | none => .normal s
    | some label =>
      if label = "" then .normal s
      else
        match extractUserData h s.currentUserData label with
        | none => .thrown s
        | some dataValue =>
          let s := { s with userTitle := textOf dataTitle }
          match toStr dataValue with
          | none => .thrown s
          | some text => .normal (updateActiveIcon { s with userValue := text } i)

/-- The function `handleIconKey(e)` for the key `e.key` and the target as in `handleIconHover`.
The second component tells whether `e.preventDefault()` was called. -/
def handleIconKey (h : Host) (s : State) (key : String) (target : Option Nat) :
    Completion × Bool :=
  if key ≠ "Enter" ∧ key ≠ " " then (.normal s, false)
  else
    match target.bind (fun i => (s.icons.get? i).map (fun li => (i, li))) with
    | none => (.normal s, true)
    | some (i, targetLi) =>
      let dataLabel := targetLi.label
      let dataTitle := targetLi.title
      match dataLabel with
      | none => (.normal s, true)
      | some label =>
        if label = "" then (.normal s, true)
        else
          match extractUserData h s.currentUserData label with
          | none => (.thrown s, true)
          | some dataValue =>
            let s := { s with userTitle := textOf dataTitle }
            match toStr dataValue with
            | none => (.thrown s, true)
            | some text => (.normal (updateActiveIcon { s with userValue := text } i), true)

def API_URL : String := "https://randomuser.me/api/"

/-- A response of the provider: its status and what `response.json()` settles to
(`none`: it rejects, the body is not JSON). -/
structure Response where
  status : Nat
  json : Option JSValue

/-- The getter `response.ok`: the status is in the range 200 to 299. -/
def Response.ok (r : Response) : Bool := 200 ≤ r.status && r.status ≤ 299

/-- Where a call of `getNewUser` stands: returned, or suspended at one of its `await`s. -/
inductive Async where
  /-- The call has returned and left this state. -/
  | done (s : State)
  /-- The call has invoked `fetch(url)` and waits for it. -/
  | awaitFetch (url : String) (s : State)
  /-- The call has invoked `response.json()` and waits for it. -/
  | awaitJson (r : Response) (s : State)

/-- The state a call has reached. -/
def Async.state : Async → State
  | .done s => s
  | .awaitFetch _ s => s
  | .awaitJson _ s => s

/-- The `catch` block of `getNewUser` followed by its `finally` block. -/
def catchFinally (s : State) (e : JSError) : State :=
  let s := { s with console := e :: s.console }
  let s := showError s "Failed to load user data. Check your connection and try again."
  { s with isLoading := false }

/-- The function `getNewUser()` up to its first `await`. -/
def getNewUser (s : State) : Async :=
  if s.isLoading then .done s
  else
    let s := { s with isLoading := true }
    let s := showLoading s
    .awaitFetch API_URL s

/-- The function `getNewUser` resumed when `fetch` has settled: rejected (`none`) or with a response. -/
def afterFetch (s : State) (settled : Option Response) : Async :=
  match settled with
  | none => .done (catchFinally s .transport)
  | some response =>
    if !response.ok then .done (catchFinally s (.http response.status))
    else .awaitJson response s

/-- The function `getNewUser` resumed when `response.json()` has settled: rejected (`none`) or with the
parsed body. -/
def afterJson (s : State) (settled : Option JSValue) : State :=
  match settled with
  | none => catchFinally s .parse
  | some data =>
    match (get data "results").bind index0 with
    | none => catchFinally s .typeError
    | some user =>
      match processUserData s user with
      | .thrown s => catchFinally s .typeError
      | .normal s =>
        let s := hideLoading s
        { s with isLoading := false }

/-- What the page can deliver to the script's three listeners. -/
inductive Event where
  /-- A `mouseover` in the list. -/
  | hover (target : Option Nat)
  /-- A `keydown` in the list. -/
  | keydown (key : String) (target : Option Nat)
  /-- A `click` on the button, which calls `getNewUser`. -/
  | click

/-- The state after the listener of one event has run up to its return, throw or `await`. -/
def handle (h : Host) (s : State) : Event → State
  | .hover target => (handleIconHover h s target).state
  | .keydown key target => (handleIconKey h s key target).1.state
  | .click => (getNewUser s).state

/-- The state after a sequence of events. -/
def handleAll (h : Host) (s : State) (es : List Event) : State :=
  es.foldl (handle h) s

/-- One whole call of `getNewUser` from state `s`: the events `es₁` arrive while `fetch` is
pending, `fetched` is what `fetch` settles to, the events `es₂` arrive while
`response.json()` is pending. -/
def getNewUserRun (h : Host) (s : State) (es₁ : List Event) (fetched : Option Response)
    (es₂ : List Event) : State :=
  match getNewUser s with
  | .done s => s
  | .awaitJson _ s => s
  | .awaitFetch _ s =>
    match afterFetch (handleAll h s es₁) fetched with
    | .done s => s
    | .awaitFetch _ s => s
    | .awaitJson response s => afterJson (handleAll h s es₂) response.json

/-! ## Definitions used to state the properties -/

/-- How a completion ended. -/
def Completion.isNormal : Completion → Bool
  | .normal _ => true
  | .thrown _ => false

/-- The five field keys of the card. -/
def fieldKeys : List String := ["name", "location", "birthday", "email", "phone"]

/-- What the listeners leave alone: the record, the in-flight flag, the keys of the icons
and the console. -/
def Kept (s s' : State) : Prop :=
  s'.currentUserData = s.currentUserData ∧ s'.isLoading = s.isLoading ∧
  s'.icons.map Icon.label = s.icons.map Icon.label ∧ s'.console = s.console

/-! ## Sample data -/

/-- A host whose local time is UTC. -/
def hostUTC : Host :=
  { localTZA := fun _ => 0, parseOther := fun _ => none, renderBeforeYearOne := fun _ => "" }

/-- The record of the specification's scenario. -/
def ada : JSValue :=
  .obj [("name", .obj [("first", .str "Ada"), ("last", .str "Lovelace")]),
        ("dob", .obj [("date", .str "1985-03-12")]),
        ("email", .str "a@x.com")]

/-- A record that `processUserData` accepts and whose first name is missing. -/
def lovelaceOnly : JSValue :=
  .obj [("name", .obj [("last", .str "Lovelace")]), ("picture", .obj [("large", .str "p.jpg")])]

/-- A record as the provider sends it, cut down to the fields the script reads. -/
def grace : JSValue :=
  .obj [("name", .obj [("title", .str "Ms"), ("first", .str "Grace"), ("last", .str "Hopper")]),
        ("picture", .obj [("large", .str "g.jpg")]),
        ("location", .obj [("street", .obj [("number", .num 12), ("name", .str "Main St")])]),
        ("dob", .obj [("date", .str "1906-12-09")]),
        ("email", .str "g@x.com"), ("phone", .str "555-0100")]

/-- A page with the five icons, a sixth with a key that is no field key, and a seventh
without a key; a record is shown and "email" is the active icon. -/
def samplePage : State :=
  { currentUserData := ada, isLoading := false, photoSrc := "a.jpg", photoAlt := "Ada",
    userTitle := "My email address is", userValue := "a@x.com",
    icons := [⟨some "name", some "Hi, My name is", false⟩,
              ⟨some "email", some "My email address is", true⟩,
              ⟨some "birthday", some "My birthday is", false⟩,
              ⟨some "location", some "My address is", false⟩,
              ⟨some "phone", some "My phone number is", false⟩,
              ⟨some "age", some "My age is", false⟩,
              ⟨none, none, false⟩],
    cardHidden := false, skeletonHidden := true, statusAreaHidden := true,
    loaderHidden := true, statusText := "", console := [] }

/-- A response with the given status whose body is `{ results: [user] }`. -/
def responseWith (status : Nat) (user : JSValue) : Response :=
  { status := status, json := some (.obj [("results", .arr [user])]) }

/-! ## Lemmas -/

theorem kept_refl (s : State) : Kept s s := ⟨rfl, rfl, rfl, rfl⟩

theorem kept_trans {a b c : State} (h₁ : Kept a b) (h₂ : Kept b c) : Kept a c :=
  ⟨h₂.1.trans h₁.1, h₂.2.1.trans h₁.2.1, h₂.2.2.1.trans h₁.2.2.1, h₂.2.2.2.trans h₁.2.2.2⟩

theorem map_label_modify (l : List Icon) (n : Nat) :
    ((l.map (fun i => { i with active := false })).modify
      (fun i => { i with active := true }) n).map Icon.label = l.map Icon.label := by
  induction l generalizing n with
  | nil => simp
  | cons a t ih => cases n <;> simp [ih]

theorem kept_updateActiveIcon (s : State) (n : Nat) : Kept s (updateActiveIcon s n) :=
  ⟨rfl, rfl, map_label_modify s.icons n, rfl⟩

theorem kept_handleIconHover (h : Host) (s : State) (t : Option Nat) :
    Kept s (handleIconHover h s t).state := by
  unfold handleIconHover
  split
  · exact kept_refl s
  · dsimp only
    split
    · exact kept_refl s
    · split
      · exact kept_refl s
      · split
        · exact kept_refl s
        · split
          · exact ⟨rfl, rfl, rfl, rfl⟩
          · exact kept_trans ⟨rfl, rfl, rfl, rfl⟩ (kept_updateActiveIcon _ _)

theorem kept_handleIconKey (h : Host) (s : State) (k : String) (t : Option Nat) :
    Kept s (handleIconKey h s k t).1.state := by
  unfold handleIconKey
  split
  · exact kept_refl s
  · split
    · exact kept_refl s
    · dsimp only
      split
      · exact kept_refl s
      · split
        · exact kept_refl s
        · split
          · exact kept_refl s
          · split
            · exact ⟨rfl, rfl, rfl, rfl⟩
            · exact kept_trans ⟨rfl, rfl, rfl, rfl⟩ (kept_updateActiveIcon _ _)

theorem kept_handle (h : Host) (s : State) (e : Event) (hl : s.isLoading = true) :
    Kept s (handle h s e) := by
  cases e with
  | hover t => exact kept_handleIconHover h s t
  | keydown k t => exact kept_handleIconKey h s k t
  | click => simp [handle, getNewUser, hl, Async.state]; exact kept_refl s

theorem kept_handleAll (h : Host) (es : List Event) (s : State) (hl : s.isLoading = true) :
    Kept s (handleAll h s es) := by
  induction es generalizing s with
  | nil => exact kept_refl s
  | cons e t ih =>
    have h1 := kept_handle h s e hl
    have h2 := ih (handle h s e) (h1.2.1.trans hl)
    exact kept_trans h1 h2

theorem getNewUser_idle (s : State) (hl : s.isLoading = false) :
    getNewUser s = .awaitFetch API_URL (showLoading { s with isLoading := true }) := by
  simp [getNewUser, hl]

theorem getNewUserRun_ok (h : Host) (s : State) (es₁ es₂ : List Event) (r : Response)
    (hl : s.isLoading = false) (hok : r.ok = true) :
    getNewUserRun h s es₁ (some r) es₂ =
      afterJson (handleAll h (handleAll h (showLoading { s with isLoading := true }) es₁) es₂)
        r.json := by
  simp [getNewUserRun, getNewUser_idle s hl, afterFetch, hok]

theorem afterJson_normal (s s' : State) (data user : JSValue)
    (huser : (JSValue.get data "results").bind index0 = some user)
    (hres : processUserData s user = .normal s') :
    afterJson s (some data) = { hideLoading s' with isLoading := false } := by
  simp [afterJson, huser, hres]

theorem filter_active_cleared (l : List Icon) :
    (l.map (fun i => { i with active := false })).filter (fun i => i.active) = [] := by
  induction l with
  | nil => rfl
  | cons a t ih => simp [ih]

theorem active_after_update (l : List Icon) (n : Nat) (k : Option String)
    (hf : l.findIdx? (fun i => i.label == k) = some n) :
    ((((l.map (fun i => { i with active := false })).modify
      (fun i => { i with active := true }) n)).filter (fun i => i.active)).map Icon.label
      = [k] := by
  induction l generalizing n with
  | nil => simp at hf
  | cons a t ih =>
    rw [List.findIdx?_cons] at hf
    by_cases hp : (a.label == k) = true
    · simp only [hp, if_true, Option.some.injEq] at hf
      subst hf
      have := filter_active_cleared t
      simp_all
    · simp only [hp] at hf
      rw [List.findIdx?_succ] at hf
      cases hm : t.findIdx? (fun i => i.label == k) with
      | none => simp [hm] at hf
      | some m =>
        simp [hm] at hf
        subst hf
        simpa using ih m hm

theorem active_after_update_at (l : List Icon) (n : Nat) (li : Icon)
    (hf : l.get? n = some li) :
    ((((l.map (fun i => { i with active := false })).modify
      (fun i => { i with active := true }) n)).filter (fun i => i.active)).map Icon.label
      = [li.label] := by
  induction l generalizing n with
  | nil => simp at hf
  | cons a t ih =>
    cases n with
    | zero =>
      have := filter_active_cleared t
      simp at hf
      subst hf
      simp_all
    | succ m =>
      simp at hf
      simpa using ih m (by simpa using hf)

theorem isNormal_processUserData (s s' : State) (user : JSValue) :
    (processUserData s user).isNormal = (processUserData s' user).isNormal := by
  unfold processUserData
  dsimp only
  split
  · rfl
  · split
    · rfl
    · split
      · rfl
      · split <;> split <;> rfl

theorem activeLabels_processUserData (s s' : State) (user : JSValue)
    (hn : processUserData s user = .normal s')
    (hname : some "name" ∈ s.icons.map Icon.label) :
    activeLabels s' = [some "name"] := by
  unfold processUserData at hn
  dsimp only at hn
  split at hn
  · cases hn
  · split at hn
    · cases hn
    · split at hn
      · cases hn
      · split at hn
        · rename_i n hf
          cases hn
          exact active_after_update s.icons n (some "name") hf
        · rename_i hf
          exfalso
          rw [List.findIdx?_eq_none_iff] at hf
          rw [List.mem_map] at hname
          obtain ⟨ic, hic, hl⟩ := hname
          have := hf ic hic
          simp [hl] at this

theorem extractUserData_unknown (h : Host) (user : JSValue) (label : String)
    (hl : label ∉ fieldKeys) :
    extractUserData h user label = some (.str "Data not found") := by
  simp only [fieldKeys, List.mem_cons, List.mem_singleton, List.mem_nil_iff, or_false,
    not_or] at hl
  unfold extractUserData
  dsimp only
  split
  · rfl
  · split <;> simp_all


/-! ### Calendar arithmetic -/

/-- C1: for every label, when the current record is `undefined`, `null` or an object with
no keys, `extractUserData(label)` returns the string "Data not found" and does not throw. -/
theorem extractUserData_absent_record (h : Host) (label : String) (user : JSValue)
    (hu : user = .undefined ∨ user = .null ∨ user = .obj []) :
    extractUserData h user label = some (.str "Data not found") := by
  rcases hu with rfl | rfl | rfl <;> rfl

/-- Witness of C1: the empty object the script starts with, asked for its "name". -/
theorem extractUserData_absent_record_witness :
    ((initialState samplePage).currentUserData = .undefined ∨
      (initialState samplePage).currentUserData = .null ∨
      (initialState samplePage).currentUserData = .obj []) ∧
    extractUserData hostUTC (initialState samplePage).currentUserData "name"
      = some (.str "Data not found") :=
  ⟨Or.inr (Or.inr rfl),
    extractUserData_absent_record hostUTC "name" (initialState samplePage).currentUserData
      (Or.inr (Or.inr rfl))⟩

/-- C4: when a request is in flight (`isLoading` is true) a call of `getNewUser` returns at
once with the state as it was: no fetch is started, nothing on the page, the record or the
flag changes, and nothing is thrown. -/
theorem getNewUser_noop_while_loading (s : State) (hl : s.isLoading = true) :
    getNewUser s = .done s := by
  simp [getNewUser, hl]

/-- Witness of C4: the sample page with a request in flight. -/
theorem getNewUser_noop_while_loading_witness :
    ({ samplePage with isLoading := true } : State).isLoading = true ∧
    getNewUser { samplePage with isLoading := true } =
      .done { samplePage with isLoading := true } :=
  ⟨rfl, getNewUser_noop_while_loading { samplePage with isLoading := true } rfl⟩

/-- C5: for every call of `getNewUser` that fetches and every response whose status is
outside 200 to 299, whatever events arrive meanwhile, the call ends with the status text
exactly "Failed to load user data. Check your connection and try again." (which is not the
raw text "HTTP Error: " followed by the status), the status area shown, the card and the
loader hidden, the raw error on the console, and the record it started with. -/
theorem getNewUser_http_error_shows_fixed_message (h : Host) (s : State)
    (es₁ es₂ : List Event) (r : Response)
    (hl : s.isLoading = false) (hs : r.status < 200 ∨ 299 < r.status) :
    (getNewUserRun h s es₁ (some r) es₂).statusText =
      "Failed to load user data. Check your connection and try again." ∧
    (getNewUserRun h s es₁ (some r) es₂).statusText ≠ "HTTP Error: " ++ toString r.status ∧
    (getNewUserRun h s es₁ (some r) es₂).statusAreaHidden = false ∧
    (getNewUserRun h s es₁ (some r) es₂).cardHidden = true ∧
    (getNewUserRun h s es₁ (some r) es₂).loaderHidden = true ∧
    (getNewUserRun h s es₁ (some r) es₂).console.head? = some (.http r.status) ∧
    (getNewUserRun h s es₁ (some r) es₂).currentUserData = s.currentUserData := by
  have hok : r.ok = false := by
    unfold Response.ok
    rcases hs with hs | hs
    · simp; omega
    · simp; omega
  have hk := kept_handleAll h es₁ (showLoading { s with isLoading := true }) rfl
  have hrun : getNewUserRun h s es₁ (some r) es₂ =
      catchFinally (handleAll h (showLoading { s with isLoading := true }) es₁)
        (.http r.status) := by
    simp [getNewUserRun, getNewUser_idle s hl, afterFetch, hok]
  rw [hrun]
  refine ⟨rfl, ?_, rfl, rfl, rfl, rfl, hk.1⟩
  intro hc
  have hd := congrArg String.data hc
  simp [catchFinally, showError] at hd

/-- Witness of C5: a response with status 500 while the pointer moves over an icon. -/
theorem getNewUser_http_error_shows_fixed_message_witness :
    samplePage.isLoading = false ∧
    ((responseWith 500 grace).status < 200 ∨ 299 < (responseWith 500 grace).status) ∧
    (getNewUserRun hostUTC samplePage [.hover (some 0)] (some (responseWith 500 grace))
      []).statusText = "Failed to load user data. Check your connection and try again." ∧
    (getNewUserRun hostUTC samplePage [.hover (some 0)] (some (responseWith 500 grace))
      []).currentUserData = samplePage.currentUserData :=
  ⟨rfl, Or.inr (by decide),
    (getNewUser_http_error_shows_fixed_message hostUTC samplePage [.hover (some 0)] []
      (responseWith 500 grace) rfl (Or.inr (by decide))).1,
    (getNewUser_http_error_shows_fixed_message hostUTC samplePage [.hover (some 0)] []
      (responseWith 500 grace) rfl (Or.inr (by decide))).2.2.2.2.2.2⟩

/-- C7: on a page whose icon list has an item with the key "name", for every selection
before the call and every fetch that succeeds (the response is ok, its body parses, it has
a first result and processing that record raises no error), whatever events arrive
meanwhile, after `getNewUser` has completed the active icons are exactly one, with the key
"name". -/
theorem getNewUser_success_resets_selection (h : Host) (s : State) (es₁ es₂ : List Event)
    (r : Response) (data user : JSValue)
    (hl : s.isLoading = false) (hok : r.ok = true) (hjson : r.json = some data)
    (huser : (JSValue.get data "results").bind index0 = some user)
    (hproc : (processUserData s user).isNormal = true)
    (hname : some "name" ∈ s.icons.map Icon.label) :
    activeLabels (getNewUserRun h s es₁ (some r) es₂) = [some "name"] := by
  have hk₁ := kept_handleAll h es₁ (showLoading { s with isLoading := true }) rfl
  have hk₂ := kept_handleAll h es₂ _ (hk₁.2.1.trans rfl)
  have hk := kept_trans hk₁ hk₂
  rw [getNewUserRun_ok h s es₁ es₂ r hl hok, hjson]
  have hp := isNormal_processUserData s
    (handleAll h (handleAll h (showLoading { s with isLoading := true }) es₁) es₂) user
  rw [hproc] at hp
  cases hres : processUserData
      (handleAll h (handleAll h (showLoading { s with isLoading := true }) es₁) es₂) user with
  | thrown s' => rw [hres] at hp; cases hp
  | normal s' =>
    have hlab : some "name" ∈ (handleAll h (handleAll h
        (showLoading { s with isLoading := true }) es₁) es₂).icons.map Icon.label := by
      rw [hk.2.2.1]; exact hname
    rw [afterJson_normal _ s' data user huser hres]
    exact activeLabels_processUserData _ s' user hres hlab

/-- Witness of C7: "email" is active before the call, the pointer moves to "birthday" while
the fetch is pending, and a good record arrives. -/
theorem getNewUser_success_resets_selection_witness :
    samplePage.isLoading = false ∧ (responseWith 200 grace).ok = true ∧
    activeLabels samplePage = [some "email"] ∧
    (processUserData samplePage grace).isNormal = true ∧
    activeLabels (getNewUserRun hostUTC samplePage [.hover (some 2)]
      (some (responseWith 200 grace)) []) = [some "name"] :=
  ⟨rfl, rfl, rfl, rfl,
    getNewUser_success_resets_selection hostUTC samplePage [.hover (some 2)] []
      (responseWith 200 grace) (.obj [("results", .arr [grace])]) grace rfl rfl rfl rfl rfl
      (by decide)⟩

/-- C8, as amended: a hover or an activation by Enter or Space on an item without a field
key (no `data-label`, or an empty one) is ignored: the state stays as it was.  On an item
whose key is not empty and is none of name, location, birthday, email, phone, it is not
ignored: the value shown becomes "Data not found", the title shown becomes the item's
`data-title` (empty when it has none) and that item becomes the only active one. -/
theorem unknown_key_shows_not_found (h : Host) (s : State) (i : Nat) (li : Icon)
    (key : String) (hi : s.icons.get? i = some li) (hkey : key = "Enter" ∨ key = " ") :
    ((li.label = none ∨ li.label = some "") →
      handleIconHover h s (some i) = .normal s ∧
      (handleIconKey h s key (some i)).1 = .normal s) ∧
    (∀ label, li.label = some label → label ≠ "" → label ∉ fieldKeys →
      handleIconHover h s (some i) = .normal (updateActiveIcon
        { s with userTitle := textOf li.title, userValue := "Data not found" } i) ∧
      (handleIconKey h s key (some i)).1 = .normal (updateActiveIcon
        { s with userTitle := textOf li.title, userValue := "Data not found" } i) ∧
      activeLabels (updateActiveIcon
        { s with userTitle := textOf li.title, userValue := "Data not found" } i)
        = [some label]) := by
  have hk : ¬(key ≠ "Enter" ∧ key ≠ " ") := by
    rcases hkey with rfl | rfl <;> simp
  have hi' : s.icons[i]? = some li := by simpa using hi
  constructor
  · intro hlab
    rcases hlab with hlab | hlab <;>
      simp [handleIconHover, handleIconKey, hi', hlab, hk]
  · intro label hlab hne hnot
    have hx := extractUserData_unknown h s.currentUserData label hnot
    refine ⟨?_, ?_, ?_⟩
    · simp [handleIconHover, hi', hlab, hne, hx, toStr]
    · simp [handleIconKey, hi', hlab, hne, hx, toStr, hk]
    · have := active_after_update_at s.icons i li hi
      rw [hlab] at this
      exact this

/-- Witness of C8 as amended: Space on the item without a key leaves the sample page as it
was; Space on the item with the key "age" makes that item the active one. -/
theorem unknown_key_shows_not_found_witness :
    samplePage.icons.get? 6 = some ⟨none, none, false⟩ ∧
    samplePage.icons.get? 5 = some ⟨some "age", some "My age is", false⟩ ∧
    "age" ∉ fieldKeys ∧
    (handleIconKey hostUTC samplePage " " (some 6)).1 = .normal samplePage ∧
    activeLabels (updateActiveIcon
      { samplePage with userTitle := textOf (some "My age is"),
                        userValue := "Data not found" } 5) = [some "age"] :=
  ⟨rfl, rfl, by decide,
    ((unknown_key_shows_not_found hostUTC samplePage 6 ⟨none, none, false⟩ " " rfl
      (Or.inr rfl)).1 (Or.inl rfl)).2,
    ((unknown_key_shows_not_found hostUTC samplePage 5 ⟨some "age", some "My age is", false⟩
      " " rfl (Or.inr rfl)).2 "age" rfl (by decide) (by decide)).2.2⟩

/-- Counterexample to C8 as stated: on the sample page "email" is active and its value is
shown; a hover on the item with the key "age", which is no field key, makes "age" the
active item and changes the title and the value shown. -/
theorem unknown_key_hover_changes_display :
    samplePage.icons.get? 5 = some ⟨some "age", some "My age is", false⟩ ∧
    "age" ∉ fieldKeys ∧
    activeLabels samplePage = [some "email"] ∧
    samplePage.userTitle = "My email address is" ∧
    samplePage.userValue = "a@x.com" ∧
    activeLabels (handleIconHover hostUTC samplePage (some 5)).state = [some "age"] ∧
    (handleIconHover hostUTC samplePage (some 5)).state.userTitle = "My age is" ∧
    (handleIconHover hostUTC samplePage (some 5)).state.userValue = "Data not found" := by
  decide

/-- C9, as amended: `handleIconKey` calls `preventDefault` exactly when the key is Enter or
Space, whether or not the target resolves to an item of the list. -/
theorem handleIconKey_preventDefault_iff_activation_key (h : Host) (s : State)
    (key : String) (target : Option Nat) :
    (handleIconKey h s key target).2 = decide (key = "Enter" ∨ key = " ") := by
  unfold handleIconKey
  by_cases hk : key ≠ "Enter" ∧ key ≠ " "
  · simp [hk]
  · have hk' : key = "Enter" ∨ key = " " := by
      by_contra hc
      exact hk ⟨fun h1 => hc (Or.inl h1), fun h2 => hc (Or.inr h2)⟩
    rw [if_neg hk]
    simp only [hk', decide_True]
    split
    · rfl
    · split
      · rfl
      · split
        · rfl
        · split
          · rfl
          · split <;> rfl

/-- Counterexample to C9 as stated: Space on a target with no enclosing item of the list
changes nothing on the sample page and still has its default action suppressed. -/
theorem preventDefault_without_item :
    (handleIconKey hostUTC samplePage " " none).1.state.userValue = samplePage.userValue ∧
    activeLabels (handleIconKey hostUTC samplePage " " none).1.state
      = activeLabels samplePage ∧
    (handleIconKey hostUTC samplePage " " none).2 = true := by
  decide

/-- C10, the code at the failing input: a fetch of a record with a last name and a picture
but no first name succeeds, the value shown after the load is "undefined Lovelace", and
`extractUserData("name")` on the record just stored is "N/A Lovelace". -/
theorem processUserData_shows_undefined_for_missing_first_name :
    (responseWith 200 lovelaceOnly).ok = true ∧
    (processUserData samplePage lovelaceOnly).isNormal = true ∧
    (getNewUserRun hostUTC samplePage [] (some (responseWith 200 lovelaceOnly)) []).cardHidden
      = false ∧
    (getNewUserRun hostUTC samplePage [] (some (responseWith 200 lovelaceOnly)) []).userValue
      = "undefined Lovelace" ∧
    (extractUserData hostUTC
      (getNewUserRun hostUTC samplePage [] (some (responseWith 200 lovelaceOnly))
        []).currentUserData "name").bind toStr = some "N/A Lovelace" := by
  decide

end UserGenerator
